import Mathlib

/-
  Verification development for the Potted-Pals progression and economy engine.
  Shallow embedding of src/src/models.py, src/src/plant_manager.py,
  src/src/shop_manager.py, src/src/data_handler.py, src/src/utils/image_loader.py
  and the state-mutating call sites in src/src/ui/main_window.py and
  src/src/ui/shop_window.py.

  Python dicts are modelled as association lists (List (String × α)) with
  unique keys and insertion order; dict assignment updates an existing key in
  place or appends a fresh key at the end, matching CPython semantics.
-/

namespace PottedPals

/-! ## Python dict model -/

/-! Python strings are sequences of code points; the embeddings below work on
    the character list of a Lean string so that slicing, prefix tests and
    digit parsing mirror Python exactly (and compute). -/

/-- Python `s.startswith(pre)`. -/
def pyStartsWith (s pre : String) : Bool :=
  List.isPrefixOf pre.toList s.toList

/-- Python `s[n:]` (slicing by code points). -/
def pyDrop (s : String) (n : Nat) : String :=
  ⟨s.toList.drop n⟩

/-- Python `len(s)`. -/
def pyLen (s : String) : Nat :=
  s.toList.length

/-- Python `str.lower` on one ASCII character. -/
def pyLowerChar (c : Char) : Char :=
  if c.isUpper then Char.ofNat (c.toNat + 32) else c

/-- Python `s.lower()` (the file suffixes it is applied to are ASCII). -/
def pyLower (s : String) : String :=
  ⟨s.toList.map pyLowerChar⟩

/-- Python `s.strip()` with no argument: remove leading and trailing
    whitespace. -/
def pyStrip (s : String) : String :=
  ⟨((s.toList.dropWhile Char.isWhitespace).reverse.dropWhile Char.isWhitespace).reverse⟩

/-- Python `pat in hay` for strings: substring test (pat is a nonempty
    literal wherever this is used). -/
def strContainsSub (hay pat : String) : Bool :=
  hay.toList.tails.any (fun t => List.isPrefixOf pat.toList t)

/-- Python `s.isdigit()` for ASCII file-name parts: nonempty and all digits. -/
def pyIsDigit (s : String) : Bool :=
  !s.toList.isEmpty && s.toList.all Char.isDigit

/-- Python `int(s)` for a string of decimal digits. -/
def digitsToInt (s : String) : Int :=
  (s.toList.foldl (fun a c => 10 * a + (c.toNat - 48)) 0 : Nat)

/-- Python `s.split(sep)[0]` for a single-character separator: the part
    before the first occurrence. -/
def pyFirstField (s : String) (sep : Char) : String :=
  ⟨s.toList.takeWhile (fun c => c != sep)⟩

/-- Python `k in d` for a dict. -/
def dictHas {α : Type} (d : List (String × α)) (k : String) : Bool :=
  d.any (fun p => p.1 == k)

/-- Python `d.get(k)`: the value at key `k`, or none. First match (keys are unique). -/
def dictGet? {α : Type} (d : List (String × α)) (k : String) : Option α :=
  (d.find? (fun p => p.1 == k)).map (fun p => p.2)

/-- Python `d.get(k, v0)`: the value at key `k`, or the default `v0`. -/
def dictGetD {α : Type} (d : List (String × α)) (k : String) (v0 : α) : α :=
  (dictGet? d k).getD v0

/-- Python `d[k] = v`: replace the existing entry in place (keys are unique),
    else append a fresh entry at the end. -/
def dictSet {α : Type} : List (String × α) → String → α → List (String × α)
  | [], k, v => [(k, v)]
  | p :: t, k, v => if p.1 == k then (k, v) :: t else p :: dictSet t k v

/-- Python `del d[k]` (keys are unique, so removing every match is the same). -/
def dictDel {α : Type} (d : List (String × α)) (k : String) : List (String × α) :=
  d.filter (fun p => p.1 != k)

/-! ## models.py -/

/-- models.py line 22. -/
def DEFAULT_PLANT_ID : String := "plant_shrub"

/-- models.py ShopItem dataclass. -/
structure ShopItem where
  id : String
  name : String
  cost : Int
  description : String := ""
  upgrade_stage : Option Int := none
deriving DecidableEq

/-- models.py UserData dataclass (dicts as ordered association lists). -/
structure UserData where
  currency_balance : Int
  active_plant_id : String
  plant_stages : List (String × Int)
  pet_custom_names : List (String × String)
  inventory : List String
  last_login : String
deriving DecidableEq

/-- models.py UserData field defaults. -/
def default_user_data : UserData :=
  { currency_balance := 0
    active_plant_id := DEFAULT_PLANT_ID
    plant_stages := [(DEFAULT_PLANT_ID, 0)]
    pet_custom_names := []
    inventory := []
    last_login := "" }

/-! ## plant_manager.py -/

/-- plant_manager.py MILESTONES. -/
def MILESTONES : List Int := [0, 100, 200, 300, 400, 500]

/-- plant_manager.py get_stage_from_currency: fold over enumerate(MILESTONES),
    keeping the last index whose milestone the balance reaches, then min with 5. -/
def get_stage_from_currency (balance : Int) : Int :=
  let stage := (MILESTONES.enum).foldl
    (fun stage p => if balance ≥ p.2 then (p.1 : Int) else stage) 0
  min stage 5

/-! ## utils/image_loader.py (asset discovery, over an abstract filesystem) -/

/-- A file as image_loader inspects it: pathlib stem and suffix. -/
structure AssetFile where
  stem : String
  suffix : String
deriving DecidableEq

/-- The assets/plants directory contents: which folder names exist as
    directories, and the files each folder contains. image_loader queries
    nothing else of the filesystem. -/
structure AssetFS where
  dirs : List String
  files : List (String × List AssetFile)
deriving DecidableEq

/-- image_loader.py get_plant_folder: strip the plant prefix, fall back to
    the shrub folder when the directory does not exist. -/
def get_plant_folder (fs : AssetFS) (plant_id : String) : String :=
  let folder := if pyStartsWith plant_id "plant_" then pyDrop plant_id 6 else plant_id
  if !(fs.dirs.contains folder) then "shrub" else folder

/-- image_loader.py get_max_stage body: scan the folder for files named
    folder_stage_N (extension .png or .jpg), take the largest N, floor at 0.
    The module-level memo cache is semantically transparent for a fixed
    filesystem and is not modelled. -/
def get_max_stage (fs : AssetFS) (plant_id : String) : Int :=
  let folder := get_plant_folder fs plant_id
  if !(fs.dirs.contains folder) then 0
  else
    let pre := folder ++ "_stage_"
    let maxN := (dictGetD fs.files folder []).foldl
      (fun m f =>
        if (pyLower f.suffix == ".png" || pyLower f.suffix == ".jpg")
            && pyStartsWith f.stem pre then
          let rest := pyDrop f.stem (pyLen pre)
          if pyIsDigit rest then max m (digitsToInt rest)
          else
            let first := pyFirstField rest '_'
            if rest.toList.contains '_' && pyIsDigit first then
              max m (digitsToInt first)
            else m
        else m)
      (-1)
    max 0 maxN

/-! ## shop_manager.py -/

/-- shop_manager.py SHOP_ITEMS (plants). -/
def SHOP_ITEMS : List ShopItem :=
  [ { id := "plant_baby_cactus", name := "Baby Cactus", cost := 100 },
    { id := "plant_clover", name := "Clover", cost := 200 },
    { id := "plant_rose", name := "Rose", cost := 300 },
    { id := "plant_cherry_blossom", name := "Cherry Blossom", cost := 500 },
    { id := "plant_strawberry", name := "Strawberry", cost := 1000 } ]

/-- shop_manager.py SHOP_PET_ITEMS (pets). -/
def SHOP_PET_ITEMS : List ShopItem :=
  [ { id := "pet_person", name := "Person", cost := 250 },
    { id := "pet_mushroom", name := "Mushroom", cost := 500 },
    { id := "pet_cat", name := "Cat", cost := 750 },
    { id := "pet_slime", name := "Slime", cost := 1000 } ]

/-- shop_manager.py get_item: first match over pets then plants. -/
def get_item (item_id : String) : Option ShopItem :=
  (SHOP_PET_ITEMS ++ SHOP_ITEMS).find? (fun item => item.id == item_id)

/-- shop_manager.py get_stage_upgrade_items: one upgrade item per stage
    1 .. get_max_stage, cost 100 * n, id keyed by the stage number only. -/
def get_stage_upgrade_items (fs : AssetFS) (plant_id : String) : List ShopItem :=
  let maxS := get_max_stage fs plant_id
  (List.range maxS.toNat).map (fun j =>
    let n : Int := (j : Int) + 1
    { id := "upgrade_stage_" ++ toString n
      name := "Grow to Stage " ++ toString n
      cost := 100 * n
      upgrade_stage := some n })

/-- shop_manager.py get_plants_owned: the implicit default plant followed by
    inventory entries with the plant prefix. -/
def get_plants_owned (user_data : UserData) : List String :=
  DEFAULT_PLANT_ID :: user_data.inventory.filter (fun i => pyStartsWith i "plant_")

/-- shop_manager.py get_pets_owned: inventory pet entries with the prefix stripped. -/
def get_pets_owned (user_data : UserData) : List String :=
  (user_data.inventory.filter (fun i => pyStartsWith i "pet_")).map (fun i => pyDrop i 4)

/-- shop_manager.py _active_plant_stage. -/
def active_plant_stage (user_data : UserData) : Int :=
  dictGetD user_data.plant_stages user_data.active_plant_id 0

/-- shop_manager.py can_afford. -/
def can_afford (user_data : UserData) (item_id : String) : Bool :=
  match get_item item_id with
  | none => false
  | some item =>
    if user_data.inventory.contains item_id then false
    else user_data.currency_balance ≥ item.cost

/-- shop_manager.py can_afford_upgrade. -/
def can_afford_upgrade (user_data : UserData) (item : ShopItem) : Bool :=
  match item.upgrade_stage with
  | none => false
  | some s =>
    if user_data.currency_balance < item.cost then false
    else active_plant_stage user_data == s - 1

/-- shop_manager.py already_has_upgrade. -/
def already_has_upgrade (user_data : UserData) (item : ShopItem) : Bool :=
  match item.upgrade_stage with
  | none => false
  | some s => active_plant_stage user_data ≥ s

/-- shop_manager.py purchase, with the mutated state returned alongside the
    success flag. -/
def purchase (user_data : UserData) (item_id : String) : Bool × UserData :=
  if !can_afford user_data item_id then (false, user_data)
  else
    match get_item item_id with
    | none => (false, user_data)
    | some item =>
      let u := { user_data with
        currency_balance := user_data.currency_balance - item.cost
        inventory := user_data.inventory ++ [item_id] }
      let u := if pyStartsWith item_id "plant_" then
          { u with plant_stages := dictSet u.plant_stages item_id 0 }
        else u
      (true, u)

/-- shop_manager.py purchase_upgrade. -/
def purchase_upgrade (user_data : UserData) (item : ShopItem) : Bool × UserData :=
  match item.upgrade_stage with
  | none => (false, user_data)
  | some s =>
    if !can_afford_upgrade user_data item then (false, user_data)
    else
      (true, { user_data with
        currency_balance := user_data.currency_balance - item.cost
        plant_stages := dictSet user_data.plant_stages user_data.active_plant_id s })

/-! ## State-mutating UI call sites -/

/-- ui/main_window.py _on_add_task_clicked line 894: add the earned dewdrops. -/
def earn_currency (user_data : UserData) (amount : Int) : UserData :=
  { user_data with currency_balance := user_data.currency_balance + amount }

/-- ui/main_window.py _select_plant_and_close line 795: set the active plant. -/
def set_active_plant (user_data : UserData) (plant_id : String) : UserData :=
  { user_data with active_plant_id := plant_id }

/-- ui/shop_window.py _rename_pet lines 226-230: a nonblank name is stored
    trimmed, a blank name deletes any existing override. -/
def set_pet_custom_name (user_data : UserData) (pet_id new_name : String) : UserData :=
  if pyStrip new_name ≠ "" then
    { user_data with
      pet_custom_names := dictSet user_data.pet_custom_names pet_id (pyStrip new_name) }
  else if dictHas user_data.pet_custom_names pet_id then
    { user_data with pet_custom_names := dictDel user_data.pet_custom_names pet_id }
  else user_data

/-- One core operation, as dispatched by the UI. -/
inductive Op where
  | earn (amount : Int)
  | buy (item_id : String)
  | buyUpgrade (item : ShopItem)
  | setActive (plant_id : String)
  | setPetName (pet_id new_name : String)
deriving DecidableEq

/-- Apply one operation to the ledger state. -/
def applyOp (u : UserData) : Op → UserData
  | .earn a => earn_currency u a
  | .buy i => (purchase u i).2
  | .buyUpgrade it => (purchase_upgrade u it).2
  | .setActive p => set_active_plant u p
  | .setPetName p n => set_pet_custom_name u p n

/-- Run a sequence of operations from a starting state. -/
def runOps (u : UserData) (ops : List Op) : UserData :=
  ops.foldl applyOp u

/-- Earning is only reachable through the task dialog, whose amounts are the
    positive dewdrop values of models.py TASKS; the other operations carry no
    side condition. -/
def opOK : Op → Bool
  | .earn a => a > 0
  | _ => true

/-! ## data_handler.py -/

/-- A parsed JSON value, as json.load yields it. Objects model Python dicts:
    unique keys, insertion order. -/
inductive JVal where
  | null
  | bool (b : Bool)
  | int (n : Int)
  | str (s : String)
  | arr (xs : List JVal)
  | obj (fields : List (String × JVal))

/-- The UserData dataclass as load_user_data builds it by UserData(**data):
    Python performs no type validation on keyword arguments, so each field
    holds whatever JSON value the migrated store contained. -/
structure UserDataDyn where
  currency_balance : JVal
  active_plant_id : JVal
  plant_stages : JVal
  pet_custom_names : JVal
  inventory : JVal
  last_login : JVal

/-- Outcome of load_user_data: a constructed UserData, or an uncaught Python
    exception propagating to the caller (only json.JSONDecodeError, KeyError
    and TypeError are caught by the except clause on line 70). -/
inductive LoadResult where
  | ok (u : UserDataDyn)
  | raised

/-- Outcome of one migration statement inside the try block. -/
inductive StepOut where
  | ok (d : List (String × JVal))
  | caught
  | raised

/-- data_handler.py get_default_data, with the clock supplied as an argument. -/
def get_default_data (today : String) : List (String × JVal) :=
  [ ("currency_balance", .int 0),
    ("active_plant_id", .str DEFAULT_PLANT_ID),
    ("plant_stages", .obj [(DEFAULT_PLANT_ID, .int 0)]),
    ("pet_custom_names", .obj []),
    ("inventory", .arr []),
    ("last_login", .str today) ]

/-- UserData(**get_default_data(today)). -/
def default_dyn (today : String) : UserDataDyn :=
  ⟨.int 0, .str DEFAULT_PLANT_ID, .obj [(DEFAULT_PLANT_ID, .int 0)], .obj [],
    .arr [], .str today⟩

/-- The UserData dataclass field names, in declaration order. -/
def userDataKeys : List String :=
  ["currency_balance", "active_plant_id", "plant_stages", "pet_custom_names",
   "inventory", "last_login"]

/-- Python `x == "plant_japanese"` for a possibly absent, arbitrarily typed
    value: equality of a non-string with a string is False. -/
def isJapaneseStr : Option JVal → Bool
  | some (.str s) => s == "plant_japanese"
  | _ => false

/-- Python membership of a string in a parsed JSON array: `==` of a string
    with a non-string element is False. -/
def hasStrElem (xs : List JVal) (k : String) : Bool :=
  xs.any (fun e => match e with | .str t => t == k | _ => false)

/-- data_handler.py lines 59-62: the plant_japanese stage-key migration.
    The in-test on a number, boolean or null raises TypeError (caught); on an
    array or string whose contents pass the test, the subsequent .get
    attribute access raises AttributeError (uncaught). -/
def japaneseStageStep (d : List (String × JVal)) : StepOut :=
  if dictHas d "plant_stages" then
    match dictGet? d "plant_stages" with
    | some (.obj st) =>
      if dictHas st "plant_japanese" then
        let merged := dictGetD st DEFAULT_PLANT_ID (dictGetD st "plant_japanese" .null)
        let st2 := dictDel (dictSet st DEFAULT_PLANT_ID merged) "plant_japanese"
        .ok (dictSet d "plant_stages" (.obj st2))
      else .ok d
    | some (.arr xs) =>
      if hasStrElem xs "plant_japanese" then .raised else .ok d
    | some (.str s) =>
      if strContainsSub s "plant_japanese" then .raised else .ok d
    | some _ => .caught
    | none => .caught
  else .ok d

/-- data_handler.py lines 48-49: adopt the legacy plant_custom_names value
    when pet_custom_names is absent. -/
def migratePetNames (d : List (String × JVal)) : List (String × JVal) :=
  if !dictHas d "pet_custom_names" then
    dictSet d "pet_custom_names" (dictGetD d "plant_custom_names" (.obj []))
  else d

/-- data_handler.py lines 50-51. -/
def dropPlantCustomNames (d : List (String × JVal)) : List (String × JVal) :=
  if dictHas d "plant_custom_names" then dictDel d "plant_custom_names" else d

/-- data_handler.py lines 53-54: synthesize plant_stages from the legacy
    scalar plant_stage, keyed to the default plant. -/
def migratePlantStages (d : List (String × JVal)) : List (String × JVal) :=
  if !dictHas d "plant_stages" then
    dictSet d "plant_stages" (.obj [(DEFAULT_PLANT_ID, dictGetD d "plant_stage" (.int 0))])
  else d

/-- data_handler.py lines 55-56. -/
def backfillActiveId (d : List (String × JVal)) (today : String) : List (String × JVal) :=
  if !dictHas d "active_plant_id" then
    dictSet d "active_plant_id" (dictGetD (get_default_data today) "active_plant_id" .null)
  else d

/-- data_handler.py lines 57-58. -/
def migrateJapaneseActive (d : List (String × JVal)) : List (String × JVal) :=
  if isJapaneseStr (dictGet? d "active_plant_id") then
    dictSet d "active_plant_id" (.str DEFAULT_PLANT_ID)
  else d

/-- data_handler.py lines 63-64. -/
def dropLegacyStage (d : List (String × JVal)) : List (String × JVal) :=
  if dictHas d "plant_stage" then dictDel d "plant_stage" else d

/-- data_handler.py lines 65-67: backfill each still-missing top-level field
    with its default. -/
def backfillDefaults (d : List (String × JVal)) (today : String) : List (String × JVal) :=
  (get_default_data today).foldl
    (fun acc kv => if !dictHas acc kv.1 then dictSet acc kv.1 kv.2 else acc) d

/-- data_handler.py line 69: UserData(**data). An unexpected keyword raises
    TypeError (caught, so the except arm returns the default); values are
    bound to fields without any type check; an absent key takes the dataclass
    default. -/
def buildUserData (d : List (String × JVal)) (today : String) : LoadResult :=
  if d.all (fun p => userDataKeys.contains p.1) then
    .ok ⟨dictGetD d "currency_balance" (.int 0),
         dictGetD d "active_plant_id" (.str DEFAULT_PLANT_ID),
         dictGetD d "plant_stages" (.obj [(DEFAULT_PLANT_ID, .int 0)]),
         dictGetD d "pet_custom_names" (.obj []),
         dictGetD d "inventory" (.arr []),
         dictGetD d "last_login" (.str "")⟩
  else .ok (default_dyn today)

/-- data_handler.py lines 59-74 after the stage-key migration step. -/
def afterStages (r : StepOut) (today : String) : LoadResult :=
  match r with
  | .raised => .raised
  | .caught => .ok (default_dyn today)
  | .ok d6 => buildUserData (backfillDefaults (dropLegacyStage d6) today) today

/-- data_handler.py load_user_data lines 47-69 on a parsed JSON object: the
    migration statements in source order. -/
def loadFromDict (data0 : List (String × JVal)) (today : String) : LoadResult :=
  afterStages
    (japaneseStageStep
      (migrateJapaneseActive
        (backfillActiveId
          (migratePlantStages (dropPlantCustomNames (migratePetNames data0))) today)))
    today

/-- data_handler.py load_user_data lines 43-74, over the parse outcome of the
    stored file. none models json.load raising JSONDecodeError (a missing
    file likewise yields the default data, via lines 38-41). A parsed
    non-object value follows the Python semantics of the dict operations the
    migration applies to it: in-tests on numbers, booleans or null raise
    TypeError (caught by line 70); parsed strings and arrays run the same
    statement sequence with substring or element membership, reaching either
    an item assignment or deletion that raises TypeError (caught) or a .get
    attribute access that raises AttributeError (uncaught). -/
def load_user_data (parsed : Option JVal) (today : String) : LoadResult :=
  match parsed with
  | none => .ok (default_dyn today)
  | some (.obj data) => loadFromDict data today
  | some (.str s) =>
    if !(strContainsSub s "pet_custom_names") then .raised
    else if strContainsSub s "plant_custom_names" then .ok (default_dyn today)
    else if !(strContainsSub s "plant_stages") then .raised
    else if !(strContainsSub s "active_plant_id") then .ok (default_dyn today)
    else .raised
  | some (.arr xs) =>
    if !(hasStrElem xs "pet_custom_names") then .raised
    else if hasStrElem xs "plant_custom_names" then .ok (default_dyn today)
    else if !(hasStrElem xs "plant_stages") then .raised
    else if !(hasStrElem xs "active_plant_id") then .ok (default_dyn today)
    else .raised
  | some _ => .ok (default_dyn today)

/-- data_handler.py save_user_data lines 81-90: the exact dict written to the
    store for a well-typed UserData. -/
def save_user_data (u : UserData) : List (String × JVal) :=
  [ ("currency_balance", .int u.currency_balance),
    ("active_plant_id", .str u.active_plant_id),
    ("plant_stages", .obj (u.plant_stages.map (fun p => (p.1, JVal.int p.2)))),
    ("pet_custom_names", .obj (u.pet_custom_names.map (fun p => (p.1, JVal.str p.2)))),
    ("inventory", .arr (u.inventory.map JVal.str)),
    ("last_login", .str u.last_login) ]

/-- The dynamically typed view of a well-typed UserData: the dataclass whose
    fields hold exactly the JSON encodings of the typed fields. -/
def toDyn (u : UserData) : UserDataDyn :=
  ⟨.int u.currency_balance, .str u.active_plant_id,
   .obj (u.plant_stages.map (fun p => (p.1, JVal.int p.2))),
   .obj (u.pet_custom_names.map (fun p => (p.1, JVal.str p.2))),
   .arr (u.inventory.map JVal.str), .str u.last_login⟩

/-- save_user_data applied to a dynamically typed UserData: json.dump writes
    whatever objects the fields hold, in the same literal order. -/
def save_dyn (u : UserDataDyn) : List (String × JVal) :=
  [ ("currency_balance", u.currency_balance),
    ("active_plant_id", u.active_plant_id),
    ("plant_stages", u.plant_stages),
    ("pet_custom_names", u.pet_custom_names),
    ("inventory", u.inventory),
    ("last_login", u.last_login) ]

/-- Modelled from the spec, section 3: a valid LedgerState. The balance is
    nonnegative; inventory entries are unique catalog item ids; stage keys
    are distinct owned plants with stages in 0..5; the active plant is owned. -/
def validState (u : UserData) : Bool :=
  decide (0 ≤ u.currency_balance) &&
  decide u.inventory.Nodup &&
  u.inventory.all (fun i => (get_item i).isSome) &&
  decide (u.plant_stages.map (fun p => p.1)).Nodup &&
  u.plant_stages.all (fun p =>
    (get_plants_owned u).contains p.1 && decide (0 ≤ p.2) && decide (p.2 ≤ 5)) &&
  (get_plants_owned u).contains u.active_plant_id

/-! ## Dictionary lemmas -/

theorem dictHas_nil {α : Type} (k : String) : dictHas ([] : List (String × α)) k = false :=
  rfl

theorem dictHas_cons {α : Type} (p : String × α) (t : List (String × α)) (k : String) :
    dictHas (p :: t) k = ((p.1 == k) || dictHas t k) := by
  simp [dictHas]

theorem dictGet?_nil {α : Type} (k : String) : dictGet? ([] : List (String × α)) k = none :=
  rfl

theorem dictGet?_cons_eq {α : Type} {p : String × α} {k : String} (t : List (String × α))
    (hb : (p.1 == k) = true) : dictGet? (p :: t) k = some p.2 := by
  simp [dictGet?, List.find?, hb]

theorem dictGet?_cons_ne {α : Type} {p : String × α} {k : String} (t : List (String × α))
    (hb : (p.1 == k) = false) : dictGet? (p :: t) k = dictGet? t k := by
  simp [dictGet?, List.find?, hb]

theorem dictSet_nil {α : Type} (k : String) (v : α) :
    dictSet ([] : List (String × α)) k v = [(k, v)] := rfl

theorem dictSet_cons_eq {α : Type} {p : String × α} {k : String} (t : List (String × α))
    (v : α) (hb : (p.1 == k) = true) : dictSet (p :: t) k v = (k, v) :: t := by
  simp [dictSet, hb]

theorem dictSet_cons_ne {α : Type} {p : String × α} {k : String} (t : List (String × α))
    (v : α) (hb : (p.1 == k) = false) : dictSet (p :: t) k v = p :: dictSet t k v := by
  simp [dictSet, hb]

theorem dictDel_nil {α : Type} (k : String) : dictDel ([] : List (String × α)) k = [] := rfl

theorem dictDel_cons_eq {α : Type} {p : String × α} {k : String} (t : List (String × α))
    (hb : (p.1 == k) = true) : dictDel (p :: t) k = dictDel t k := by
  simp [dictDel, List.filter, bne, hb]

theorem dictDel_cons_ne {α : Type} {p : String × α} {k : String} (t : List (String × α))
    (hb : (p.1 == k) = false) : dictDel (p :: t) k = p :: dictDel t k := by
  simp [dictDel, List.filter, bne, hb]

theorem dictGet?_set_self {α : Type} (d : List (String × α)) (k : String) (v : α) :
    dictGet? (dictSet d k v) k = some v := by
  induction d with
  | nil => rw [dictSet_nil, dictGet?_cons_eq _ (by simp)]
  | cons p t ih =>
    by_cases hp : p.1 = k
    · rw [dictSet_cons_eq _ _ (by simpa using hp), dictGet?_cons_eq _ (by simp)]
    · have hb : (p.1 == k) = false := by simpa using hp
      rw [dictSet_cons_ne _ _ hb, dictGet?_cons_ne _ hb, ih]

theorem dictGet?_set_other {α : Type} (d : List (String × α)) (k k' : String) (v : α)
    (hne : k' ≠ k) : dictGet? (dictSet d k v) k' = dictGet? d k' := by
  have hkk : (k == k') = false := by
    simp only [beq_eq_false_iff_ne, ne_eq]
    exact fun hh => hne hh.symm
  induction d with
  | nil => rw [dictSet_nil, dictGet?_cons_ne _ hkk]
  | cons p t ih =>
    by_cases hp : p.1 = k
    · have hpk : (p.1 == k') = false := by
        simp only [beq_eq_false_iff_ne, ne_eq, hp]
        exact fun hh => hne hh.symm
      rw [dictSet_cons_eq _ _ (by simpa using hp), dictGet?_cons_ne _ hkk,
        dictGet?_cons_ne _ hpk]
    · have hb : (p.1 == k) = false := by simpa using hp
      by_cases hq : p.1 = k'
      · have hbq : (p.1 == k') = true := by simpa using hq
        rw [dictSet_cons_ne _ _ hb, dictGet?_cons_eq _ hbq, dictGet?_cons_eq _ hbq]
      · have hbq : (p.1 == k') = false := by simpa using hq
        rw [dictSet_cons_ne _ _ hb, dictGet?_cons_ne _ hbq, dictGet?_cons_ne _ hbq, ih]

theorem dictHas_set {α : Type} (d : List (String × α)) (k k' : String) (v : α) :
    dictHas (dictSet d k v) k' = ((k == k') || dictHas d k') := by
  induction d with
  | nil => rw [dictSet_nil, dictHas_cons]
  | cons p t ih =>
    by_cases hp : p.1 = k
    · have hb : (p.1 == k) = true := by simpa using hp
      rw [dictSet_cons_eq _ _ hb, dictHas_cons, dictHas_cons]
      have hpe : p.1 = k := hp
      by_cases hq : k = k'
      · simp [hq, hpe]
      · have h1 : (k == k') = false := by simpa using hq
        have h2 : (p.1 == k') = false := by simpa [hpe] using hq
        simp [h1, h2]
    · have hb : (p.1 == k) = false := by simpa using hp
      rw [dictSet_cons_ne _ _ hb, dictHas_cons, ih, dictHas_cons]
      cases hkk : (k == k') <;> cases hpq : (p.1 == k') <;> simp

theorem dictHas_del_self {α : Type} (d : List (String × α)) (k : String) :
    dictHas (dictDel d k) k = false := by
  induction d with
  | nil => rw [dictDel_nil, dictHas_nil]
  | cons p t ih =>
    by_cases hp : p.1 = k
    · rw [dictDel_cons_eq _ (by simpa using hp), ih]
    · have hb : (p.1 == k) = false := by simpa using hp
      rw [dictDel_cons_ne _ hb, dictHas_cons, ih, hb]
      simp

theorem dictGet?_del_other {α : Type} (d : List (String × α)) (k k' : String)
    (hne : k' ≠ k) : dictGet? (dictDel d k) k' = dictGet? d k' := by
  induction d with
  | nil => rw [dictDel_nil]
  | cons p t ih =>
    by_cases hp : p.1 = k
    · have hb : (p.1 == k) = true := by simpa using hp
      have hpk : (p.1 == k') = false := by
        simp only [beq_eq_false_iff_ne, ne_eq, hp]
        exact fun hh => hne hh.symm
      rw [dictDel_cons_eq _ hb, dictGet?_cons_ne _ hpk, ih]
    · have hb : (p.1 == k) = false := by simpa using hp
      by_cases hq : p.1 = k'
      · have hbq : (p.1 == k') = true := by simpa using hq
        rw [dictDel_cons_ne _ hb, dictGet?_cons_eq _ hbq, dictGet?_cons_eq _ hbq]
      · have hbq : (p.1 == k') = false := by simpa using hq
        rw [dictDel_cons_ne _ hb, dictGet?_cons_ne _ hbq, dictGet?_cons_ne _ hbq, ih]

/-! ## Stage calculator -/

/-- Closed form of the milestone fold, for reuse in the claim proofs. -/
theorem get_stage_closed (b : Int) :
    get_stage_from_currency b =
      min (if b ≥ 500 then 5 else if b ≥ 400 then 4 else if b ≥ 300 then 3
        else if b ≥ 200 then 2 else if b ≥ 100 then 1 else 0) 5 := by
  unfold get_stage_from_currency MILESTONES
  simp only [List.enum, List.enumFrom, List.foldl]
  split_ifs <;> omega

/-- C5: get_stage_from_currency returns the highest milestone index the
    balance reaches (for nonnegative balances), clamped to 5; it is monotone,
    0 on [0, 99] and 5 from 500 on. -/
theorem c5_stage_for_balance :
    (∀ b1 b2 : Int, b1 ≤ b2 →
      get_stage_from_currency b1 ≤ get_stage_from_currency b2) ∧
    (∀ b : Int, 0 ≤ b → b ≤ 99 → get_stage_from_currency b = 0) ∧
    (∀ b : Int, 500 ≤ b → get_stage_from_currency b = 5) ∧
    (∀ b : Int, 0 ≤ b →
      0 ≤ get_stage_from_currency b ∧ get_stage_from_currency b ≤ 5) ∧
    (∀ b : Int, 0 ≤ b → ∀ i : Nat, i < MILESTONES.length →
      (MILESTONES.getD i 0 ≤ b ↔ (i : Int) ≤ get_stage_from_currency b)) := by
  refine ⟨?_, ?_, ?_, ?_, ?_⟩
  · intro b1 b2 h
    rw [get_stage_closed, get_stage_closed]
    split_ifs <;> omega
  · intro b h0 h99
    rw [get_stage_closed]
    split_ifs <;> omega
  · intro b h
    rw [get_stage_closed]
    split_ifs <;> omega
  · intro b h
    rw [get_stage_closed]
    split_ifs <;> omega
  · intro b hb i hi
    rw [get_stage_closed]
    have hi6 : i < 6 := by simpa [MILESTONES] using hi
    interval_cases i <;> simp [MILESTONES] <;> split_ifs <;> omega

/-- Witness for C5 at the worked examples of the spec. -/
theorem c5_stage_for_balance_witness :
    get_stage_from_currency 0 = 0 ∧ get_stage_from_currency 99 = 0 ∧
    get_stage_from_currency 10000 = 5 ∧
    get_stage_from_currency 100 ≤ get_stage_from_currency 499 :=
  ⟨c5_stage_for_balance.2.1 0 (by decide) (by decide),
   c5_stage_for_balance.2.1 99 (by decide) (by decide),
   c5_stage_for_balance.2.2.1 10000 (by decide),
   c5_stage_for_balance.1 100 499 (by decide)⟩

/-! ## Purchase lemmas -/

theorem can_afford_spec {u : UserData} {item_id : String} {item : ShopItem}
    (hitem : get_item item_id = some item) :
    can_afford u item_id =
      (!u.inventory.contains item_id && decide (item.cost ≤ u.currency_balance)) := by
  unfold can_afford
  rw [hitem]
  by_cases hc : u.inventory.contains item_id <;> simp [hc, ge_iff_le]

theorem can_afford_of_owned {u : UserData} {item_id : String}
    (h : u.inventory.contains item_id = true) : can_afford u item_id = false := by
  unfold can_afford
  cases hit : get_item item_id with
  | none => rfl
  | some item => rw [h]; simp

theorem purchase_fail {u : UserData} {item_id : String}
    (h : can_afford u item_id = false) : purchase u item_id = (false, u) := by
  unfold purchase
  rw [h]
  simp

theorem purchase_success_state {u : UserData} {item_id : String} {item : ShopItem}
    (hitem : get_item item_id = some item)
    (haff : can_afford u item_id = true) :
    purchase u item_id = (true,
      let u1 : UserData := { u with
        currency_balance := u.currency_balance - item.cost
        inventory := u.inventory ++ [item_id] }
      if pyStartsWith item_id "plant_" then
        { u1 with plant_stages := dictSet u1.plant_stages item_id 0 }
      else u1) := by
  unfold purchase
  rw [haff, hitem]
  simp

theorem purchase_success_can_afford {u : UserData} {item_id : String}
    (h : (purchase u item_id).1 = true) : can_afford u item_id = true := by
  by_cases haff : can_afford u item_id
  · exact haff
  · rw [purchase_fail (by simpa using haff)] at h
    simp at h

theorem purchase_success_get_item {u : UserData} {item_id : String}
    (h : (purchase u item_id).1 = true) : ∃ item, get_item item_id = some item := by
  cases hit : get_item item_id with
  | some item => exact ⟨item, rfl⟩
  | none =>
    unfold purchase at h
    rw [hit] at h
    by_cases haff : can_afford u item_id <;> simp [haff] at h

/-- C2: a successful purchase deducts exactly the item cost, leaves the
    balance nonnegative, and puts the item id in the inventory exactly once. -/
theorem c2_purchase_success (u : UserData) (item_id : String) (item : ShopItem)
    (hitem : get_item item_id = some item)
    (hok : (purchase u item_id).1 = true) :
    (purchase u item_id).2.currency_balance = u.currency_balance - item.cost ∧
    0 ≤ (purchase u item_id).2.currency_balance ∧
    (purchase u item_id).2.inventory.count item_id = 1 := by
  have haff := purchase_success_can_afford hok
  rw [can_afford_spec hitem] at haff
  simp only [Bool.and_eq_true, Bool.not_eq_true', decide_eq_true_eq] at haff
  obtain ⟨hnot, hcost⟩ := haff
  have hnotmem : item_id ∉ u.inventory := by
    simpa using hnot
  rw [purchase_success_state hitem (purchase_success_can_afford hok)]
  by_cases hplant : pyStartsWith item_id "plant_" <;>
    simp [hplant, List.count_append, List.count_eq_zero.mpr hnotmem] <;>
    omega

/-- Witness for C2: buying the 250-dewdrop pet from a 250-dewdrop default
    state. -/
theorem c2_purchase_success_witness :
    (purchase { default_user_data with currency_balance := 250 } "pet_person").2.currency_balance
        = ({ default_user_data with currency_balance := 250 } : UserData).currency_balance - 250 ∧
    0 ≤ (purchase { default_user_data with currency_balance := 250 } "pet_person").2.currency_balance ∧
    (purchase { default_user_data with currency_balance := 250 } "pet_person").2.inventory.count "pet_person" = 1 :=
  c2_purchase_success { default_user_data with currency_balance := 250 } "pet_person"
    ⟨"pet_person", "Person", 250, "", none⟩ (by decide) (by decide)

/-- C3: after a successful purchase, a second purchase of the same item id
    fails and leaves the whole state unchanged. -/
theorem c3_purchase_twice (u : UserData) (item_id : String)
    (hok : (purchase u item_id).1 = true) :
    purchase (purchase u item_id).2 item_id = (false, (purchase u item_id).2) := by
  obtain ⟨item, hitem⟩ := purchase_success_get_item hok
  have haff := purchase_success_can_afford hok
  have howned : ((purchase u item_id).2.inventory.contains item_id) = true := by
    rw [purchase_success_state hitem haff]
    by_cases hplant : pyStartsWith item_id "plant_" <;> simp [hplant]
  exact purchase_fail (can_afford_of_owned howned)

/-- Witness for C3 at the concrete pet purchase. -/
theorem c3_purchase_twice_witness :
    purchase (purchase { default_user_data with currency_balance := 250 } "pet_person").2 "pet_person"
      = (false, (purchase { default_user_data with currency_balance := 250 } "pet_person").2) :=
  c3_purchase_twice { default_user_data with currency_balance := 250 } "pet_person" (by decide)

/-! ## Upgrade lemmas -/

theorem can_afford_upgrade_spec (u : UserData) (item : ShopItem) (s : Int)
    (hs : item.upgrade_stage = some s) :
    can_afford_upgrade u item =
      (decide (item.cost ≤ u.currency_balance) && (active_plant_stage u == s - 1)) := by
  unfold can_afford_upgrade
  rw [hs]
  by_cases h : u.currency_balance < item.cost
  · have h2 : ¬ item.cost ≤ u.currency_balance := by omega
    simp [h, h2]
  · have h2 : item.cost ≤ u.currency_balance := by omega
    simp [h, h2]

theorem purchase_upgrade_fail {u : UserData} {item : ShopItem}
    (h : can_afford_upgrade u item = false) : purchase_upgrade u item = (false, u) := by
  unfold purchase_upgrade
  cases hs : item.upgrade_stage with
  | none => rfl
  | some s => rw [h]; simp

theorem purchase_upgrade_success_state {u : UserData} {item : ShopItem} {s : Int}
    (hs : item.upgrade_stage = some s) (h : can_afford_upgrade u item = true) :
    purchase_upgrade u item = (true, { u with
      currency_balance := u.currency_balance - item.cost
      plant_stages := dictSet u.plant_stages u.active_plant_id s }) := by
  unfold purchase_upgrade
  rw [hs, h]
  simp

theorem purchase_upgrade_success_can_afford {u : UserData} {item : ShopItem}
    (h : (purchase_upgrade u item).1 = true) : can_afford_upgrade u item = true := by
  by_cases haff : can_afford_upgrade u item
  · exact haff
  · rw [purchase_upgrade_fail (by simpa using haff)] at h
    simp at h

/-- C4: purchase_upgrade succeeds exactly when the item is a stage upgrade,
    the balance covers the cost, and the active plant is exactly one stage
    below; on success the cost is deducted and the active plant stage is set
    to exactly the upgrade stage; in every other case it fails with the state
    unchanged. -/
theorem c4_purchase_upgrade (u : UserData) (item : ShopItem) :
    ((purchase_upgrade u item).1 = true ↔
      ∃ s, item.upgrade_stage = some s ∧ item.cost ≤ u.currency_balance ∧
        active_plant_stage u = s - 1) ∧
    (∀ s : Int, item.upgrade_stage = some s → (purchase_upgrade u item).1 = true →
      (purchase_upgrade u item).2.currency_balance = u.currency_balance - item.cost ∧
      (purchase_upgrade u item).2.active_plant_id = u.active_plant_id ∧
      dictGet? (purchase_upgrade u item).2.plant_stages u.active_plant_id = some s) ∧
    ((purchase_upgrade u item).1 = false → (purchase_upgrade u item).2 = u) := by
  refine ⟨⟨?_, ?_⟩, ?_, ?_⟩
  · intro h1
    cases hs : item.upgrade_stage with
    | none =>
      unfold purchase_upgrade at h1
      rw [hs] at h1
      simp at h1
    | some s =>
      have haff := purchase_upgrade_success_can_afford h1
      rw [can_afford_upgrade_spec u item s hs] at haff
      simp only [Bool.and_eq_true, decide_eq_true_eq, beq_iff_eq] at haff
      exact ⟨s, rfl, haff.1, haff.2⟩
  · rintro ⟨s, hs, hcost, hstage⟩
    have haff : can_afford_upgrade u item = true := by
      rw [can_afford_upgrade_spec u item s hs]
      simp [hcost, hstage]
    rw [purchase_upgrade_success_state hs haff]
  · intro s hs h1
    have haff := purchase_upgrade_success_can_afford h1
    rw [purchase_upgrade_success_state hs haff]
    exact ⟨rfl, rfl, dictGet?_set_self _ _ _⟩
  · intro h0
    cases hs : item.upgrade_stage with
    | none =>
      unfold purchase_upgrade
      rw [hs]
    | some s =>
      by_cases haff : can_afford_upgrade u item
      · rw [purchase_upgrade_success_state hs haff] at h0
        simp at h0
      · rw [purchase_upgrade_fail (by simpa using haff)]

/-- Witness for C4: at the default plant on stage 0 with 150 dewdrops, the
    stage-1 upgrade item succeeds and sets the stage to 1 with 50 left. -/
theorem c4_purchase_upgrade_witness :
    (purchase_upgrade { default_user_data with currency_balance := 150 }
        ⟨"upgrade_stage_1", "Grow to Stage 1", 100, "", some 1⟩).1 = true ∧
    (purchase_upgrade { default_user_data with currency_balance := 150 }
        ⟨"upgrade_stage_1", "Grow to Stage 1", 100, "", some 1⟩).2.currency_balance = 50 ∧
    dictGet? (purchase_upgrade { default_user_data with currency_balance := 150 }
        ⟨"upgrade_stage_1", "Grow to Stage 1", 100, "", some 1⟩).2.plant_stages
      "plant_shrub" = some 1 := by
  have h := c4_purchase_upgrade { default_user_data with currency_balance := 150 }
    ⟨"upgrade_stage_1", "Grow to Stage 1", 100, "", some 1⟩
  have hok := h.1.mpr ⟨1, rfl, by decide, by decide⟩
  have hpost := h.2.1 1 rfl hok
  refine ⟨hok, ?_, ?_⟩
  · rw [hpost.1]
    rfl
  · have h3 := hpost.2.2
    simpa [default_user_data, DEFAULT_PLANT_ID] using h3

/-- C10: purchase never changes the active plant id, pet custom names or
    last login; it changes no plant_stages entry other than the one keyed by
    the purchased item id, and for a non-plant item id it leaves
    plant_stages entirely unchanged. -/
theorem c10_purchase_frame (u : UserData) (item_id : String) :
    (purchase u item_id).2.active_plant_id = u.active_plant_id ∧
    (purchase u item_id).2.pet_custom_names = u.pet_custom_names ∧
    (purchase u item_id).2.last_login = u.last_login ∧
    (∀ k, k ≠ item_id →
      dictGet? (purchase u item_id).2.plant_stages k = dictGet? u.plant_stages k) ∧
    (pyStartsWith item_id "plant_" = false →
      (purchase u item_id).2.plant_stages = u.plant_stages) := by
  by_cases haff : can_afford u item_id
  case neg =>
    rw [purchase_fail (by simpa using haff)]
    exact ⟨rfl, rfl, rfl, fun k _ => rfl, fun _ => rfl⟩
  case pos =>
    cases hit : get_item item_id with
    | none =>
      have hfail : purchase u item_id = (false, u) := by
        unfold purchase
        rw [haff, hit]
        simp
      rw [hfail]
      exact ⟨rfl, rfl, rfl, fun k _ => rfl, fun _ => rfl⟩
    | some item =>
      rw [purchase_success_state hit haff]
      by_cases hplant : pyStartsWith item_id "plant_"
      · refine ⟨by simp [hplant], by simp [hplant], by simp [hplant], ?_, ?_⟩
        · intro k hk
          simp only [hplant, if_true]
          exact dictGet?_set_other _ _ _ _ hk
        · intro hfalse
          rw [hplant] at hfalse
          cases hfalse
      · have hp : pyStartsWith item_id "plant_" = false := by simpa using hplant
        exact ⟨by simp [hp], by simp [hp], by simp [hp],
          fun k _ => by simp [hp], fun _ => by simp [hp]⟩

/-- Witness for C10 at the pet purchase: no plant or name state moves. -/
theorem c10_purchase_frame_witness :
    (purchase { default_user_data with currency_balance := 250 } "pet_slime").2.active_plant_id
      = ({ default_user_data with currency_balance := 250 } : UserData).active_plant_id ∧
    dictGet? (purchase { default_user_data with currency_balance := 250 } "pet_slime").2.plant_stages
        "plant_shrub"
      = dictGet? ({ default_user_data with currency_balance := 250 } : UserData).plant_stages
        "plant_shrub" ∧
    (purchase { default_user_data with currency_balance := 250 } "pet_slime").2.plant_stages
      = ({ default_user_data with currency_balance := 250 } : UserData).plant_stages := by
  have h := c10_purchase_frame { default_user_data with currency_balance := 250 } "pet_slime"
  exact ⟨h.1, h.2.2.2.1 "plant_shrub" (by decide), h.2.2.2.2 (by decide)⟩

/-! ## Balance invariant -/

theorem applyOp_balance_nonneg (u : UserData) (op : Op)
    (hu : 0 ≤ u.currency_balance) (hop : opOK op = true) :
    0 ≤ (applyOp u op).currency_balance := by
  cases op with
  | earn a =>
    simp only [opOK, decide_eq_true_eq] at hop
    simp only [applyOp, earn_currency]
    omega
  | buy i =>
    by_cases haff : can_afford u i
    · cases hit : get_item i with
      | none =>
        have hfail : purchase u i = (false, u) := by
          unfold purchase
          rw [haff, hit]
          simp
        simpa [applyOp, hfail] using hu
      | some item =>
        have hc : item.cost ≤ u.currency_balance := by
          have h2 := haff
          rw [can_afford_spec hit] at h2
          simp only [Bool.and_eq_true, decide_eq_true_eq] at h2
          exact h2.2
        have h := purchase_success_state hit haff
        simp only [applyOp, h]
        by_cases hplant : pyStartsWith i "plant_" <;> simp [hplant] <;> omega
    · simpa [applyOp, purchase_fail (by simpa using haff)] using hu
  | buyUpgrade it =>
    by_cases haff : can_afford_upgrade u it
    · cases hs : it.upgrade_stage with
      | none =>
        have hfail : purchase_upgrade u it = (false, u) := by
          unfold purchase_upgrade
          rw [hs]
        simpa [applyOp, hfail] using hu
      | some s =>
        have hc : it.cost ≤ u.currency_balance := by
          have h2 := haff
          rw [can_afford_upgrade_spec u it s hs] at h2
          simp only [Bool.and_eq_true, decide_eq_true_eq] at h2
          exact h2.1
        rw [show applyOp u (Op.buyUpgrade it) = (purchase_upgrade u it).2 from rfl,
          purchase_upgrade_success_state hs haff]
        simp
        omega
    · simpa [applyOp, purchase_upgrade_fail (by simpa using haff)] using hu
  | setActive p => simpa [applyOp, set_active_plant] using hu
  | setPetName p n =>
    simp only [applyOp, set_pet_custom_name]
    split_ifs <;> exact hu

theorem runOps_balance_nonneg (ops : List Op) :
    ∀ u : UserData, 0 ≤ u.currency_balance → ops.all opOK = true →
    0 ≤ (runOps u ops).currency_balance := by
  induction ops with
  | nil => intro u hu _; exact hu
  | cons op t ih =>
    intro u hu hall
    simp only [List.all_cons, Bool.and_eq_true] at hall
    exact ih (applyOp u op) (applyOp_balance_nonneg u op hu hall.1) hall.2

/-- C1: from the default state, any sequence of core operations with
    positive earn amounts keeps the balance nonnegative; purchase and
    purchase_upgrade deduct only when the balance covers the cost and
    otherwise return failure with the state unchanged. -/
theorem c1_balance_never_negative (ops : List Op) (h : ops.all opOK = true) :
    0 ≤ (runOps default_user_data ops).currency_balance ∧
    (∀ (u : UserData) (item_id : String) (item : ShopItem),
      get_item item_id = some item → u.currency_balance < item.cost →
      purchase u item_id = (false, u)) ∧
    (∀ (u : UserData) (item : ShopItem), u.currency_balance < item.cost →
      purchase_upgrade u item = (false, u)) := by
  refine ⟨runOps_balance_nonneg ops default_user_data (by decide) h, ?_, ?_⟩
  · intro u item_id item hit hlt
    apply purchase_fail
    rw [can_afford_spec hit]
    simp only [Bool.and_eq_false_iff, decide_eq_false_iff_not]
    right
    omega
  · intro u item hlt
    apply purchase_upgrade_fail
    unfold can_afford_upgrade
    cases hs : item.upgrade_stage with
    | none => rfl
    | some s => simp [hlt]

/-- Witness for C1 on a concrete operation sequence that earns, buys a pet
    twice (second fails), tries an unaffordable upgrade, switches plants and
    clears a pet name. -/
theorem c1_balance_never_negative_witness :
    ([Op.earn 250, Op.buy "pet_person", Op.buy "pet_person",
        Op.buyUpgrade ⟨"upgrade_stage_1", "Grow to Stage 1", 100, "", some 1⟩,
        Op.setActive "plant_rose", Op.setPetName "person" "  "].all opOK = true) ∧
    0 ≤ (runOps default_user_data
      [Op.earn 250, Op.buy "pet_person", Op.buy "pet_person",
        Op.buyUpgrade ⟨"upgrade_stage_1", "Grow to Stage 1", 100, "", some 1⟩,
        Op.setActive "plant_rose", Op.setPetName "person" "  "]).currency_balance :=
  ⟨by decide,
    (c1_balance_never_negative
      [Op.earn 250, Op.buy "pet_person", Op.buy "pet_person",
        Op.buyUpgrade ⟨"upgrade_stage_1", "Grow to Stage 1", 100, "", some 1⟩,
        Op.setActive "plant_rose", Op.setPetName "person" "  "] (by decide)).1⟩

/-! ## Persistence lemmas -/

theorem dictHas_map_val {α β : Type} (f : α → β) (d : List (String × α)) (k : String) :
    dictHas (d.map (fun p => (p.1, f p.2))) k = dictHas d k := by
  induction d with
  | nil => rfl
  | cons p t ih => simp [dictHas] at ih ⊢; rw [ih]

theorem migratePetNames_present {d : List (String × JVal)}
    (h : dictHas d "pet_custom_names" = true) : migratePetNames d = d := by
  unfold migratePetNames
  rw [h]
  simp

theorem dropPlantCustomNames_absent {d : List (String × JVal)}
    (h : dictHas d "plant_custom_names" = false) : dropPlantCustomNames d = d := by
  unfold dropPlantCustomNames
  rw [h]
  simp

theorem migratePlantStages_present {d : List (String × JVal)}
    (h : dictHas d "plant_stages" = true) : migratePlantStages d = d := by
  unfold migratePlantStages
  rw [h]
  simp

theorem backfillActiveId_present {d : List (String × JVal)} (today : String)
    (h : dictHas d "active_plant_id" = true) : backfillActiveId d today = d := by
  unfold backfillActiveId
  rw [h]
  simp

theorem migrateJapaneseActive_not {d : List (String × JVal)}
    (h : isJapaneseStr (dictGet? d "active_plant_id") = false) :
    migrateJapaneseActive d = d := by
  unfold migrateJapaneseActive
  rw [h]
  simp

theorem japaneseStageStep_clean {d st : List (String × JVal)}
    (hhas : dictHas d "plant_stages" = true)
    (hget : dictGet? d "plant_stages" = some (.obj st))
    (hst : dictHas st "plant_japanese" = false) :
    japaneseStageStep d = .ok d := by
  unfold japaneseStageStep
  rw [hhas, hget]
  simp [hst]

theorem japaneseStageStep_merge {d st : List (String × JVal)}
    (hhas : dictHas d "plant_stages" = true)
    (hget : dictGet? d "plant_stages" = some (.obj st))
    (hst : dictHas st "plant_japanese" = true) :
    japaneseStageStep d = .ok (dictSet d "plant_stages" (.obj
      (dictDel (dictSet st DEFAULT_PLANT_ID
        (dictGetD st DEFAULT_PLANT_ID (dictGetD st "plant_japanese" .null)))
        "plant_japanese"))) := by
  unfold japaneseStageStep
  rw [hhas, hget]
  simp [hst]

theorem dropLegacyStage_absent {d : List (String × JVal)}
    (h : dictHas d "plant_stage" = false) : dropLegacyStage d = d := by
  unfold dropLegacyStage
  rw [h]
  simp

theorem backfillDefaults_present {d : List (String × JVal)} (today : String)
    (h1 : dictHas d "currency_balance" = true)
    (h2 : dictHas d "active_plant_id" = true)
    (h3 : dictHas d "plant_stages" = true)
    (h4 : dictHas d "pet_custom_names" = true)
    (h5 : dictHas d "inventory" = true)
    (h6 : dictHas d "last_login" = true) :
    backfillDefaults d today = d := by
  unfold backfillDefaults get_default_data
  simp [h1, h2, h3, h4, h5, h6]

/-- Loading a store of the canonical six-field shape whose active plant is
    not the deprecated id and whose stage keys avoid it reproduces the stored
    values unchanged. -/
theorem loadFromDict_canonical (cb pn inv ll : JVal) (ap : String)
    (st : List (String × JVal)) (today : String)
    (hap : (ap == "plant_japanese") = false)
    (hst : dictHas st "plant_japanese" = false) :
    loadFromDict
      [("currency_balance", cb), ("active_plant_id", .str ap), ("plant_stages", .obj st),
       ("pet_custom_names", pn), ("inventory", inv), ("last_login", ll)] today
      = .ok ⟨cb, .str ap, .obj st, pn, inv, ll⟩ := by
  set D : List (String × JVal) :=
    [("currency_balance", cb), ("active_plant_id", .str ap), ("plant_stages", .obj st),
     ("pet_custom_names", pn), ("inventory", inv), ("last_login", ll)] with hD
  unfold loadFromDict
  rw [migratePetNames_present (show dictHas D "pet_custom_names" = true from rfl),
    dropPlantCustomNames_absent (show dictHas D "plant_custom_names" = false from rfl),
    migratePlantStages_present (show dictHas D "plant_stages" = true from rfl),
    backfillActiveId_present today (show dictHas D "active_plant_id" = true from rfl),
    migrateJapaneseActive_not
      (show isJapaneseStr (dictGet? D "active_plant_id") = false from hap),
    japaneseStageStep_clean (show dictHas D "plant_stages" = true from rfl)
      (show dictGet? D "plant_stages" = some (.obj st) from rfl) hst]
  show buildUserData (backfillDefaults (dropLegacyStage D) today) today = _
  rw [dropLegacyStage_absent (show dictHas D "plant_stage" = false from rfl),
    backfillDefaults_present today (show dictHas D "currency_balance" = true from rfl)
      (show dictHas D "active_plant_id" = true from rfl)
      (show dictHas D "plant_stages" = true from rfl)
      (show dictHas D "pet_custom_names" = true from rfl)
      (show dictHas D "inventory" = true from rfl)
      (show dictHas D "last_login" = true from rfl)]
  rfl

theorem dictHas_of_get? {α : Type} {d : List (String × α)} {k : String} {v : α}
    (h : dictGet? d k = some v) : dictHas d k = true := by
  induction d with
  | nil => simp [dictGet?] at h
  | cons p t ih =>
    by_cases hp : p.1 = k
    · have hb : (p.1 == k) = true := by simpa using hp
      rw [dictHas_cons, hb]
      rfl
    · have hb : (p.1 == k) = false := by simpa using hp
      rw [dictGet?_cons_ne _ hb] at h
      rw [dictHas_cons, hb, ih h]
      rfl

theorem not_owned_japanese (u : UserData)
    (hcat : ∀ i ∈ u.inventory, (get_item i).isSome = true) :
    "plant_japanese" ∉ get_plants_owned u := by
  intro hmem
  unfold get_plants_owned at hmem
  rcases List.mem_cons.mp hmem with h | h
  · exact absurd h (by decide)
  · have h2 := hcat _ (List.mem_of_mem_filter h)
    rw [show get_item "plant_japanese" = none from rfl] at h2
    simp at h2

theorem valid_no_japanese (u : UserData) (hv : validState u = true) :
    (u.active_plant_id == "plant_japanese") = false ∧
    dictHas u.plant_stages "plant_japanese" = false := by
  unfold validState at hv
  simp only [Bool.and_eq_true, decide_eq_true_eq, List.all_eq_true] at hv
  obtain ⟨⟨⟨⟨⟨hbal, hnodup⟩, hcat⟩, hkeys⟩, hstages⟩, hactive⟩ := hv
  have hcat2 : ∀ i ∈ u.inventory, (get_item i).isSome = true := by
    intro i hi
    simpa using hcat i hi
  have hnj := not_owned_japanese u hcat2
  constructor
  · cases hb : (u.active_plant_id == "plant_japanese") with
    | false => rfl
    | true =>
      have heq : u.active_plant_id = "plant_japanese" := by simpa using hb
      have hmem : u.active_plant_id ∈ get_plants_owned u := by simpa using hactive
      rw [heq] at hmem
      exact absurd hmem hnj
  · cases hb : dictHas u.plant_stages "plant_japanese" with
    | false => rfl
    | true =>
      obtain ⟨p, hp, hpk⟩ : ∃ p ∈ u.plant_stages, p.1 = "plant_japanese" := by
        unfold dictHas at hb
        simp only [List.any_eq_true, beq_iff_eq] at hb
        exact hb
      have h3 := hstages p hp
      simp only [Bool.and_eq_true] at h3
      have hc : p.1 ∈ get_plants_owned u := by simpa using h3.1.1
      rw [hpk] at hc
      exact absurd hc hnj

/-- C6: saving any valid LedgerState and loading it back reproduces exactly
    the saved state field for field (toDyn is injective, so the dynamic
    result determines the state, inventory order included), and saving the
    loaded state writes the identical store again. -/
theorem c6_round_trip (u : UserData) (today : String) (hv : validState u = true) :
    load_user_data (some (.obj (save_user_data u))) today = .ok (toDyn u) ∧
    (∀ v : UserData, toDyn v = toDyn u → v = u) ∧
    save_dyn (toDyn u) = save_user_data u := by
  obtain ⟨hap, hst⟩ := valid_no_japanese u hv
  refine ⟨?_, ?_, rfl⟩
  · show loadFromDict (save_user_data u) today = .ok (toDyn u)
    have hmap : dictHas (u.plant_stages.map (fun p => (p.1, JVal.int p.2)))
        "plant_japanese" = false := by
      rw [dictHas_map_val]
      exact hst
    have h := loadFromDict_canonical (.int u.currency_balance)
      (.obj (u.pet_custom_names.map (fun p => (p.1, JVal.str p.2))))
      (.arr (u.inventory.map JVal.str)) (.str u.last_login) u.active_plant_id
      (u.plant_stages.map (fun p => (p.1, JVal.int p.2))) today hap hmap
    rw [← show save_user_data u =
      [("currency_balance", JVal.int u.currency_balance),
       ("active_plant_id", JVal.str u.active_plant_id),
       ("plant_stages", JVal.obj (u.plant_stages.map (fun p => (p.1, JVal.int p.2)))),
       ("pet_custom_names", JVal.obj (u.pet_custom_names.map (fun p => (p.1, JVal.str p.2)))),
       ("inventory", JVal.arr (u.inventory.map JVal.str)),
       ("last_login", JVal.str u.last_login)] from rfl,
      ← show toDyn u = ⟨JVal.int u.currency_balance, JVal.str u.active_plant_id,
        JVal.obj (u.plant_stages.map (fun p => (p.1, JVal.int p.2))),
        JVal.obj (u.pet_custom_names.map (fun p => (p.1, JVal.str p.2))),
        JVal.arr (u.inventory.map JVal.str), JVal.str u.last_login⟩ from rfl] at h
    exact h
  · intro v h
    unfold toDyn at h
    simp only [UserDataDyn.mk.injEq, JVal.int.injEq, JVal.str.injEq, JVal.obj.injEq,
      JVal.arr.injEq] at h
    obtain ⟨h1, h2, h3, h4, h5, h6⟩ := h
    have hfInt : Function.Injective (fun p : String × Int => (p.1, JVal.int p.2)) := by
      rintro ⟨a, b⟩ ⟨c, d⟩ hpq
      simp only [Prod.mk.injEq, JVal.int.injEq] at hpq
      simp [hpq.1, hpq.2]
    have hfStr : Function.Injective (fun p : String × String => (p.1, JVal.str p.2)) := by
      rintro ⟨a, b⟩ ⟨c, d⟩ hpq
      simp only [Prod.mk.injEq, JVal.str.injEq] at hpq
      simp [hpq.1, hpq.2]
    have hfS : Function.Injective JVal.str := by
      intro a b hab
      simpa using hab
    have h3r : v.plant_stages = u.plant_stages := List.map_injective_iff.mpr hfInt h3
    have h4r : v.pet_custom_names = u.pet_custom_names := List.map_injective_iff.mpr hfStr h4
    have h5r : v.inventory = u.inventory := List.map_injective_iff.mpr hfS h5
    cases v
    cases u
    simp only at h1 h2 h3r h4r h5r h6
    simp [h1, h2, h3r, h4r, h5r, h6]

/-- Witness for C6 on a concrete valid state owning a pet. -/
theorem c6_round_trip_witness :
    validState ⟨250, "plant_shrub", [("plant_shrub", 2)], [("person", "Bob")],
      ["pet_person"], "2026-02-03"⟩ = true ∧
    load_user_data (some (.obj (save_user_data ⟨250, "plant_shrub", [("plant_shrub", 2)],
      [("person", "Bob")], ["pet_person"], "2026-02-03"⟩))) "2026-02-03"
      = .ok (toDyn ⟨250, "plant_shrub", [("plant_shrub", 2)], [("person", "Bob")],
          ["pet_person"], "2026-02-03"⟩) :=
  ⟨by decide,
    (c6_round_trip ⟨250, "plant_shrub", [("plant_shrub", 2)], [("person", "Bob")],
      ["pet_person"], "2026-02-03"⟩ "2026-02-03" (by decide)).1⟩

/-- C7: loading a canonical store whose active plant is the deprecated
    "plant_japanese" and whose stage map contains that key rewrites both to
    the default plant id, keeps an already-present default-key stage value
    and otherwise adopts the old value, and leaves no "plant_japanese" key. -/
theorem c7_japanese_migration (cb pn inv ll : JVal) (st : List (String × JVal))
    (jv : JVal) (today : String)
    (hjv : dictGet? st "plant_japanese" = some jv) :
    load_user_data (some (.obj
      [("currency_balance", cb), ("active_plant_id", .str "plant_japanese"),
       ("plant_stages", .obj st), ("pet_custom_names", pn), ("inventory", inv),
       ("last_login", ll)])) today
      = .ok ⟨cb, .str DEFAULT_PLANT_ID,
          .obj (dictDel (dictSet st DEFAULT_PLANT_ID (dictGetD st DEFAULT_PLANT_ID jv))
            "plant_japanese"), pn, inv, ll⟩ ∧
    dictHas (dictDel (dictSet st DEFAULT_PLANT_ID (dictGetD st DEFAULT_PLANT_ID jv))
      "plant_japanese") "plant_japanese" = false ∧
    dictGet? (dictDel (dictSet st DEFAULT_PLANT_ID (dictGetD st DEFAULT_PLANT_ID jv))
      "plant_japanese") DEFAULT_PLANT_ID = some (dictGetD st DEFAULT_PLANT_ID jv) := by
  have hjvD : dictGetD st "plant_japanese" JVal.null = jv := by
    unfold dictGetD
    rw [hjv]
    rfl
  have hstjap : dictHas st "plant_japanese" = true := dictHas_of_get? hjv
  refine ⟨?_, dictHas_del_self _ _, ?_⟩
  · set D : List (String × JVal) :=
      [("currency_balance", cb), ("active_plant_id", JVal.str "plant_japanese"),
       ("plant_stages", JVal.obj st), ("pet_custom_names", pn), ("inventory", inv),
       ("last_login", ll)] with hD
    show loadFromDict D today = _
    unfold loadFromDict
    rw [migratePetNames_present (show dictHas D "pet_custom_names" = true from rfl),
      dropPlantCustomNames_absent (show dictHas D "plant_custom_names" = false from rfl),
      migratePlantStages_present (show dictHas D "plant_stages" = true from rfl),
      backfillActiveId_present today (show dictHas D "active_plant_id" = true from rfl)]
    rw [show migrateJapaneseActive D =
        [("currency_balance", cb), ("active_plant_id", JVal.str DEFAULT_PLANT_ID),
         ("plant_stages", JVal.obj st), ("pet_custom_names", pn), ("inventory", inv),
         ("last_login", ll)] from rfl]
    set D2 : List (String × JVal) :=
      [("currency_balance", cb), ("active_plant_id", JVal.str DEFAULT_PLANT_ID),
       ("plant_stages", JVal.obj st), ("pet_custom_names", pn), ("inventory", inv),
       ("last_login", ll)] with hD2
    rw [japaneseStageStep_merge (show dictHas D2 "plant_stages" = true from rfl)
      (show dictGet? D2 "plant_stages" = some (JVal.obj st) from rfl) hstjap]
    rw [hjvD]
    set ST2 : List (String × JVal) :=
      dictDel (dictSet st DEFAULT_PLANT_ID (dictGetD st DEFAULT_PLANT_ID jv))
        "plant_japanese" with hST2
    rw [show dictSet D2 "plant_stages" (JVal.obj ST2) =
        [("currency_balance", cb), ("active_plant_id", JVal.str DEFAULT_PLANT_ID),
         ("plant_stages", JVal.obj ST2), ("pet_custom_names", pn), ("inventory", inv),
         ("last_login", ll)] from rfl]
    set D3 : List (String × JVal) :=
      [("currency_balance", cb), ("active_plant_id", JVal.str DEFAULT_PLANT_ID),
       ("plant_stages", JVal.obj ST2), ("pet_custom_names", pn), ("inventory", inv),
       ("last_login", ll)] with hD3
    show buildUserData (backfillDefaults (dropLegacyStage D3) today) today = _
    rw [dropLegacyStage_absent (show dictHas D3 "plant_stage" = false from rfl),
      backfillDefaults_present today (show dictHas D3 "currency_balance" = true from rfl)
        (show dictHas D3 "active_plant_id" = true from rfl)
        (show dictHas D3 "plant_stages" = true from rfl)
        (show dictHas D3 "pet_custom_names" = true from rfl)
        (show dictHas D3 "inventory" = true from rfl)
        (show dictHas D3 "last_login" = true from rfl)]
    rfl
  · rw [dictGet?_del_other _ _ _ (show DEFAULT_PLANT_ID ≠ "plant_japanese" by decide),
      dictGet?_set_self]

/-- Witness for C7 at the worked example of the spec: active plant_japanese
    with stage 2 and no other stage entry. -/
theorem c7_japanese_migration_witness :
    load_user_data (some (.obj
      [("currency_balance", JVal.int 0), ("active_plant_id", JVal.str "plant_japanese"),
       ("plant_stages", JVal.obj [("plant_japanese", JVal.int 2)]),
       ("pet_custom_names", JVal.obj []), ("inventory", JVal.arr []),
       ("last_login", JVal.str "2026-01-01")])) "2026-01-01"
      = .ok ⟨JVal.int 0, JVal.str DEFAULT_PLANT_ID,
          JVal.obj (dictDel (dictSet [("plant_japanese", JVal.int 2)] DEFAULT_PLANT_ID
            (dictGetD [("plant_japanese", JVal.int 2)] DEFAULT_PLANT_ID (JVal.int 2)))
            "plant_japanese"), JVal.obj [], JVal.arr [], JVal.str "2026-01-01"⟩ ∧
    dictHas (dictDel (dictSet [("plant_japanese", JVal.int 2)] DEFAULT_PLANT_ID
      (dictGetD [("plant_japanese", JVal.int 2)] DEFAULT_PLANT_ID (JVal.int 2)))
      "plant_japanese") "plant_japanese" = false ∧
    dictGet? (dictDel (dictSet [("plant_japanese", JVal.int 2)] DEFAULT_PLANT_ID
      (dictGetD [("plant_japanese", JVal.int 2)] DEFAULT_PLANT_ID (JVal.int 2)))
      "plant_japanese") DEFAULT_PLANT_ID
      = some (dictGetD [("plant_japanese", JVal.int 2)] DEFAULT_PLANT_ID (JVal.int 2)) :=
  c7_japanese_migration (JVal.int 0) (JVal.obj []) (JVal.arr []) (JVal.str "2026-01-01")
    [("plant_japanese", JVal.int 2)] (JVal.int 2) "2026-01-01" rfl

/-- C8 counterexample: a parsed store whose currency_balance holds a string
    (a type-mismatched field value) does not load to the fresh default state;
    the mismatched value is carried through unchanged. -/
theorem c8_type_mismatch_counterexample :
    load_user_data (some (.obj
      [("currency_balance", .str "lots"), ("active_plant_id", .str "plant_shrub"),
       ("plant_stages", .obj [("plant_shrub", .int 0)]), ("pet_custom_names", .obj []),
       ("inventory", .arr []), ("last_login", .str "2026-01-01")])) "2026-01-01"
      ≠ .ok (default_dyn "2026-01-01") ∧
    load_user_data (some (.obj
      [("currency_balance", .str "lots"), ("active_plant_id", .str "plant_shrub"),
       ("plant_stages", .obj [("plant_shrub", .int 0)]), ("pet_custom_names", .obj []),
       ("inventory", .arr []), ("last_login", .str "2026-01-01")])) "2026-01-01"
      = .ok ⟨.str "lots", .str "plant_shrub", .obj [("plant_shrub", .int 0)], .obj [],
          .arr [], .str "2026-01-01"⟩ := by
  refine ⟨?_, rfl⟩
  intro h
  rw [show load_user_data (some (.obj
      [("currency_balance", .str "lots"), ("active_plant_id", .str "plant_shrub"),
       ("plant_stages", .obj [("plant_shrub", .int 0)]), ("pet_custom_names", .obj []),
       ("inventory", .arr []), ("last_login", .str "2026-01-01")])) "2026-01-01"
      = .ok ⟨.str "lots", .str "plant_shrub", .obj [("plant_shrub", .int 0)], .obj [],
          .arr [], .str "2026-01-01"⟩ from rfl] at h
  simp [default_dyn] at h

/-- C8 (amended): an unparseable store loads as the fresh default, but
    type-mismatched field values are not validated: replacing the balance of
    a freshly saved valid store with an arbitrarily typed value loads
    successfully and carries that value through unchanged. -/
theorem c8_corrupt_store (today : String) (u : UserData) (v : JVal)
    (hv : validState u = true) :
    load_user_data none today = .ok (default_dyn today) ∧
    load_user_data (some (.obj (dictSet (save_user_data u) "currency_balance" v))) today
      = .ok ⟨v, .str u.active_plant_id,
          .obj (u.plant_stages.map (fun p => (p.1, JVal.int p.2))),
          .obj (u.pet_custom_names.map (fun p => (p.1, JVal.str p.2))),
          .arr (u.inventory.map JVal.str), .str u.last_login⟩ := by
  obtain ⟨hap, hst⟩ := valid_no_japanese u hv
  refine ⟨rfl, ?_⟩
  show loadFromDict (dictSet (save_user_data u) "currency_balance" v) today = _
  have hmap : dictHas (u.plant_stages.map (fun p => (p.1, JVal.int p.2)))
      "plant_japanese" = false := by
    rw [dictHas_map_val]
    exact hst
  have h := loadFromDict_canonical v
    (.obj (u.pet_custom_names.map (fun p => (p.1, JVal.str p.2))))
    (.arr (u.inventory.map JVal.str)) (.str u.last_login) u.active_plant_id
    (u.plant_stages.map (fun p => (p.1, JVal.int p.2))) today hap hmap
  rw [← show dictSet (save_user_data u) "currency_balance" v =
      [("currency_balance", v), ("active_plant_id", JVal.str u.active_plant_id),
       ("plant_stages", JVal.obj (u.plant_stages.map (fun p => (p.1, JVal.int p.2)))),
       ("pet_custom_names", JVal.obj (u.pet_custom_names.map (fun p => (p.1, JVal.str p.2)))),
       ("inventory", JVal.arr (u.inventory.map JVal.str)),
       ("last_login", JVal.str u.last_login)] from rfl] at h
  exact h

/-- Witness for the amended C8 on the default state and a boolean balance. -/
theorem c8_corrupt_store_witness :
    validState default_user_data = true ∧
    load_user_data (some (.obj (dictSet (save_user_data default_user_data)
        "currency_balance" (.bool true)))) "2026-01-01"
      = .ok ⟨.bool true, .str default_user_data.active_plant_id,
          .obj (default_user_data.plant_stages.map (fun p => (p.1, JVal.int p.2))),
          .obj (default_user_data.pet_custom_names.map (fun p => (p.1, JVal.str p.2))),
          .arr (default_user_data.inventory.map JVal.str),
          .str default_user_data.last_login⟩ :=
  ⟨by decide,
    (c8_corrupt_store "2026-01-01" default_user_data (.bool true) (by decide)).2⟩

/-- C9 counterexample: with the shrub assets directory present and holding a
    stage-3 image, a plant id with no matching asset folder falls back to the
    shrub folder: its max stage is 3 and its upgrade list is nonempty, not 0
    with an empty list. -/
theorem c9_unknown_plant_counterexample :
    get_plant_folder ⟨["shrub"], [("shrub", [⟨"shrub_stage_3", ".png"⟩])]⟩ "plant_mystery"
      = "shrub" ∧
    get_max_stage ⟨["shrub"], [("shrub", [⟨"shrub_stage_3", ".png"⟩])]⟩ "plant_mystery"
      = 3 ∧
    get_max_stage ⟨["shrub"], [("shrub", [⟨"shrub_stage_3", ".png"⟩])]⟩ "plant_mystery"
      ≠ 0 ∧
    get_stage_upgrade_items ⟨["shrub"], [("shrub", [⟨"shrub_stage_3", ".png"⟩])]⟩
      "plant_mystery" ≠ [] := by
  refine ⟨by decide, by decide, by decide, ?_⟩
  intro h
  have hlen : (get_stage_upgrade_items ⟨["shrub"], [("shrub", [⟨"shrub_stage_3", ".png"⟩])]⟩
      "plant_mystery").length = 3 := by
    simp only [get_stage_upgrade_items,
      show get_max_stage ⟨["shrub"], [("shrub", [⟨"shrub_stage_3", ".png"⟩])]⟩
        "plant_mystery" = 3 from by decide,
      List.length_map, List.length_range]
    rfl
  rw [h] at hlen
  simp at hlen

/-- C9 (amended): for every filesystem and every plant identifier whose
    asset folder is not a directory, get_plant_folder falls back to the shrub
    folder, so get_max_stage and get_stage_upgrade_items report exactly the
    shrub folder's maximum stage and upgrade items; when the shrub assets
    directory is itself absent, these are 0 and the empty sequence. -/
theorem c9_unknown_folder_fallback (fs : AssetFS) (plant_id : String)
    (hfolder : fs.dirs.contains
      (if pyStartsWith plant_id "plant_" then pyDrop plant_id 6 else plant_id) = false) :
    get_plant_folder fs plant_id = "shrub" ∧
    get_max_stage fs plant_id = get_max_stage fs "shrub" ∧
    get_stage_upgrade_items fs plant_id = get_stage_upgrade_items fs "shrub" ∧
    (fs.dirs.contains "shrub" = false →
      get_max_stage fs plant_id = 0 ∧ get_stage_upgrade_items fs plant_id = []) := by
  have h1 : get_plant_folder fs plant_id = "shrub" := by
    unfold get_plant_folder
    simp only [hfolder, Bool.not_false, if_true]
  have hsf : get_plant_folder fs "shrub" = "shrub" := by
    show (if !(fs.dirs.contains "shrub") then "shrub" else "shrub") = "shrub"
    cases hc : fs.dirs.contains "shrub" <;> rfl
  have h2 : get_max_stage fs plant_id = get_max_stage fs "shrub" := by
    unfold get_max_stage
    rw [h1, hsf]
  have h3 : get_stage_upgrade_items fs plant_id = get_stage_upgrade_items fs "shrub" := by
    unfold get_stage_upgrade_items
    rw [h2]
  refine ⟨h1, h2, h3, fun hshrub => ?_⟩
  have h4 : get_max_stage fs plant_id = 0 := by
    unfold get_max_stage
    simp only [h1, hshrub, Bool.not_false, if_true]
  refine ⟨h4, ?_⟩
  unfold get_stage_upgrade_items
  simp only [h4]
  simp

/-- Witness for the amended C9: with a populated shrub directory an unknown
    plant id reports the shrub values; with an empty assets tree it degrades
    to zero stages and no upgrade items. -/
theorem c9_unknown_folder_fallback_witness :
    (get_plant_folder ⟨["shrub"], [("shrub", [⟨"shrub_stage_1", ".png"⟩])]⟩
        "plant_mystery" = "shrub" ∧
      get_max_stage ⟨["shrub"], [("shrub", [⟨"shrub_stage_1", ".png"⟩])]⟩ "plant_mystery"
        = get_max_stage ⟨["shrub"], [("shrub", [⟨"shrub_stage_1", ".png"⟩])]⟩ "shrub" ∧
      get_stage_upgrade_items ⟨["shrub"], [("shrub", [⟨"shrub_stage_1", ".png"⟩])]⟩
          "plant_mystery"
        = get_stage_upgrade_items ⟨["shrub"], [("shrub", [⟨"shrub_stage_1", ".png"⟩])]⟩
          "shrub") ∧
    (get_max_stage ⟨[], []⟩ "plant_mystery" = 0 ∧
      get_stage_upgrade_items ⟨[], []⟩ "plant_mystery" = []) :=
  ⟨⟨(c9_unknown_folder_fallback ⟨["shrub"], [("shrub", [⟨"shrub_stage_1", ".png"⟩])]⟩
      "plant_mystery" (by decide)).1,
    (c9_unknown_folder_fallback ⟨["shrub"], [("shrub", [⟨"shrub_stage_1", ".png"⟩])]⟩
      "plant_mystery" (by decide)).2.1,
    (c9_unknown_folder_fallback ⟨["shrub"], [("shrub", [⟨"shrub_stage_1", ".png"⟩])]⟩
      "plant_mystery" (by decide)).2.2.1⟩,
   (c9_unknown_folder_fallback ⟨[], []⟩ "plant_mystery" (by decide)).2.2.2 (by decide)⟩

end PottedPals
